import Mathlib

set_option maxHeartbeats 1000000

/-!
Shallow embedding of the two-phase-commit sensor database.

The participant (replica) side is translated from the Go `DatabaseService`
(`internal/database`): the bounded FIFO log, the prepared-transaction map,
and the Create / Prepare / Commit / Abort / Update / Delete / sweeper
operations.  The coordinator side is translated from the 2PC client
(`TwoPhaseCommitClientFactory`, `AddDataPointWithTwoPhaseCommit`,
`commitAll`, `abortAll`, `generateTransactionID`).

Modelling conventions:
* instants and durations are integer nanoseconds (`Int`), matching Go's
  `time.Time` / `time.Duration` resolution;
* the float64 `Value` field is modelled as `Int`: no arithmetic is ever
  performed on it, only structural equality;
* the Go `map[string]*TransactionState` is modelled as an association list
  whose keys are unique (insertion is always guarded by a lookup);
* an RPC transport is modelled by a `Bool` per participant and phase:
  `true` means the request is delivered and the response returned,
  `false` means the call fails before the participant processes it.
-/

namespace TwoPC

/-- Internal sensor record (Go `types.SensorData`). -/
structure SensorData where
  sensorID : String
  timestamp : Int
  value : Int
  unit : String
deriving DecidableEq

/-- Wire message `pb.SensorDataRequest`; a nil protobuf timestamp is `none`. -/
structure SensorDataRequest where
  sensorId : String
  timestamp : Option Int
  value : Int
  unit : String
deriving DecidableEq

/-- Wire message `pb.PrepareResponse`. -/
structure PrepareResponse where
  success : Bool
  message : String
  transactionId : String
deriving DecidableEq

/-- Wire message `pb.OperationResponse`. -/
structure OperationResponse where
  success : Bool
  message : String
deriving DecidableEq

/-- Wire message `pb.TransactionRequest`; a nil `SensorData` pointer is `none`. -/
structure TransactionRequest where
  transactionId : String
  sensorData : Option SensorDataRequest
deriving DecidableEq

/-- Go `TransactionState`: a prepared-but-not-committed transaction. -/
structure TransactionState where
  transactionID : String
  sensorData : SensorData
  preparedAt : Int
deriving DecidableEq

/-- 30 seconds in nanoseconds (`30 * time.Second`). -/
def thirtySeconds : Int := 30 * 1000000000

/-- Go `DatabaseService`: the replica log, its capacity, the prepared
transactions and the prepared-entry timeout.  The two mutexes and the
cleanup ticker carry no state relevant to the sequential semantics; the
locking structure is modelled separately by event traces below. -/
structure DatabaseService where
  data : List SensorData
  maxDataPoints : Nat
  preparedTxns : List (String × TransactionState)
  txnTimeout : Int
deriving DecidableEq

/-- Go `DatabaseServiceFactory`. -/
def DatabaseServiceFactory (limit : Nat) : DatabaseService :=
  { data := [], maxDataPoints := limit, preparedTxns := [], txnTimeout := thirtySeconds }

/-- Go `protoToSensorData`: a nil timestamp is replaced by the receiver's
current time. -/
def protoToSensorData (req : SensorDataRequest) (now : Int) : SensorData :=
  { sensorID := req.sensorId
    timestamp := req.timestamp.getD now
    value := req.value
    unit := req.unit }

/-- Go `sensorDataToProto` (also the request built by the client wrappers):
the timestamp is always present. -/
def sensorDataToProto (d : SensorData) : SensorDataRequest :=
  { sensorId := d.sensorID, timestamp := some d.timestamp, value := d.value, unit := d.unit }

/-- Go `addDataPointInternal`: append, then drop the oldest entries if the
capacity is exceeded (`s.data = s.data[len(s.data)-s.maxDataPoints:]`). -/
def addDataPointInternal (s : DatabaseService) (d : SensorData) : DatabaseService :=
  let grown := s.data ++ [d]
  { s with data :=
      if grown.length > s.maxDataPoints then
        grown.drop (grown.length - s.maxDataPoints)
      else grown }

/-- Go `CreateSensorData` (direct, non-2PC path). -/
def CreateSensorData (s : DatabaseService) (req : SensorDataRequest) (now : Int) :
    DatabaseService × OperationResponse :=
  if req.sensorId = "" then
    (s, ⟨false, "Missing sensor ID"⟩)
  else
    (addDataPointInternal s (protoToSensorData req now), ⟨true, "Data stored successfully"⟩)

/-- Go `PrepareTransaction` (phase 1 of 2PC at the participant). -/
def PrepareTransaction (s : DatabaseService) (req : TransactionRequest) (now : Int) :
    DatabaseService × PrepareResponse :=
  if req.transactionId = "" then
    (s, ⟨false, "Missing transaction ID", ""⟩)
  else
    match req.sensorData with
    | none => (s, ⟨false, "Missing sensor data", ""⟩)
    | some sd =>
      if sd.sensorId = "" then
        (s, ⟨false, "Missing sensor ID in sensor data", ""⟩)
      else if (s.preparedTxns.lookup req.transactionId).isSome then
        (s, ⟨false, "Transaction already prepared", req.transactionId⟩)
      else
        ({ s with preparedTxns :=
            (req.transactionId,
              { transactionID := req.transactionId
                sensorData := protoToSensorData sd now
                preparedAt := now }) :: s.preparedTxns },
          ⟨true, "Transaction prepared successfully", req.transactionId⟩)

/-- The failure message of Commit/Abort on an unknown transaction
(`"Transaction %s not found or not prepared"`). -/
def notPreparedMsg (txid : String) : String :=
  "Transaction " ++ txid ++ " not found or not prepared"

/-- Go `delete(s.preparedTxns, txid)`. -/
def eraseTxn (l : List (String × TransactionState)) (txid : String) :
    List (String × TransactionState) :=
  l.filter (fun p => p.1 != txid)

/-- Go `CommitTransaction` (phase 2 of 2PC at the participant): the data
is appended to the log, then the entry is removed from the prepared set. -/
def CommitTransaction (s : DatabaseService) (txid : String) :
    DatabaseService × OperationResponse :=
  if txid = "" then
    (s, ⟨false, "Missing transaction ID"⟩)
  else
    match s.preparedTxns.lookup txid with
    | none => (s, ⟨false, notPreparedMsg txid⟩)
    | some txnState =>
      let s1 := addDataPointInternal s txnState.sensorData
      ({ s1 with preparedTxns := eraseTxn s1.preparedTxns txid },
        ⟨true, "Transaction committed successfully"⟩)

/-- Go `AbortTransaction`: the prepared entry is discarded, the log is not
touched. -/
def AbortTransaction (s : DatabaseService) (txid : String) :
    DatabaseService × OperationResponse :=
  if txid = "" then
    (s, ⟨false, "Missing transaction ID"⟩)
  else
    match s.preparedTxns.lookup txid with
    | none => (s, ⟨false, notPreparedMsg txid⟩)
    | some _ =>
      ({ s with preparedTxns := eraseTxn s.preparedTxns txid },
        ⟨true, "Transaction aborted successfully"⟩)

/-- Go `cleanupExpiredTransactions` (one sweeper run at instant `now`):
delete every prepared entry with `now - preparedAt > txnTimeout`. -/
def cleanupExpiredTransactions (s : DatabaseService) (now : Int) : DatabaseService :=
  { s with preparedTxns :=
      s.preparedTxns.filter (fun p => !(decide (s.txnTimeout < now - p.2.preparedAt))) }

/-- The update loop of Go `UpdateSensorData`: patch `value` and `unit` of
the first entry matching `(sensorId, ts)` and stop; the `Bool` is the Go
`updated` flag. -/
def updateEntries (sensorId : String) (ts : Int) (value : Int) (unit : String) :
    List SensorData → List SensorData × Bool
  | [] => ([], false)
  | d :: rest =>
    if d.sensorID = sensorId ∧ d.timestamp = ts then
      ({ d with value := value, unit := unit } :: rest, true)
    else
      let r := updateEntries sensorId ts value unit rest
      (d :: r.1, r.2)

/-- Go `UpdateSensorData`. -/
def UpdateSensorData (s : DatabaseService) (req : SensorDataRequest) :
    DatabaseService × OperationResponse :=
  match req.timestamp with
  | none => (s, ⟨false, "Missing sensor ID or timestamp"⟩)
  | some ts =>
    if req.sensorId = "" then
      (s, ⟨false, "Missing sensor ID or timestamp"⟩)
    else
      let r := updateEntries req.sensorId ts req.value req.unit s.data
      if r.2 then
        ({ s with data := r.1 }, ⟨true, "Data updated successfully"⟩)
      else
        (s, ⟨false, "Data not found"⟩)

/-- Go `DeleteSensorData`: rebuild the log keeping only the records of the
other sensors.  Always succeeds for a non-empty id. -/
def DeleteSensorData (s : DatabaseService) (sensorId : String) :
    DatabaseService × OperationResponse :=
  if sensorId = "" then
    (s, ⟨false, "Missing sensor ID"⟩)
  else
    ({ s with data := s.data.filter (fun d => d.sensorID != sensorId) },
      ⟨true, "Deleted data for sensor"⟩)

/-! ## Coordinator (the 2PC client from the repository's client code)

Each participant is paired with the transport behaviour of its RPCs during
one coordinator call: `prepOk` (`decOk`) is `true` when the Prepare
(respectively Commit/Abort) RPC is delivered and answered. -/

/-- Transport behaviour of one participant during one coordinator call. -/
structure Net where
  prepOk : Bool
  decOk : Bool
deriving DecidableEq

/-- A replica paired with its transport behaviour. -/
abbrev Participant := DatabaseService × Net

/-- One iteration of the coordinator's Prepare fan-out loop: the client
wrapper `Client.PrepareTransaction` builds a `TransactionRequest` and
returns either the response or a transport error (`none`). -/
def prepStep (txid : String) (req : SensorDataRequest) (now : Int) (p : Participant) :
    Participant × Option PrepareResponse :=
  if p.2.prepOk then
    let r := PrepareTransaction p.1 ⟨txid, some req⟩ now
    ((r.1, p.2), some r.2)
  else (p, none)

/-- The coordinator's Prepare fan-out: every participant receives a
Prepare, with no short-circuit on an earlier NO vote or error (the Go loop
has no `break`). -/
def preparePhase (txid : String) (req : SensorDataRequest) (now : Int)
    (ps : List Participant) : List (Participant × Option PrepareResponse) :=
  ps.map (prepStep txid req now)

/-- One Prepare outcome counts as YES exactly when the RPC was delivered
and the response has `Success` set (Go:
`err == nil && resp != nil && resp.Success`). -/
def prepareOutcomeYes (o : Option PrepareResponse) : Bool :=
  match o with
  | some resp => resp.success
  | none => false

/-- The coordinator's `allPrepared` check. -/
def allPrepared (outs : List (Option PrepareResponse)) : Bool :=
  outs.all prepareOutcomeYes

/-- One iteration of `commitAll`: the client wrapper turns a transport
error or a non-success response into a failed commit. -/
def commitStep (txid : String) (p : Participant) : Participant × Bool :=
  if p.2.decOk then
    let r := CommitTransaction p.1 txid
    ((r.1, p.2), r.2.success)
  else (p, false)

/-- Go `commitAll`: commit at every participant; the overall result is
success iff `successCount == len(tpc.clients)`. -/
def commitAll (txid : String) (ps : List Participant) : List Participant × Bool :=
  (ps.map (fun p => (commitStep txid p).1), ps.all (fun p => (commitStep txid p).2))

/-- One iteration of `abortAll`. -/
def abortStep (txid : String) (p : Participant) : Participant :=
  if p.2.decOk then ((AbortTransaction p.1 txid).1, p.2) else p

/-- Go `abortAll`: abort at every participant (the Go function always
returns a non-nil error afterwards). -/
def abortAll (txid : String) (ps : List Participant) : List Participant :=
  ps.map (abortStep txid)

/-- The three caller-visible outcomes of `AddDataPointWithTwoPhaseCommit`:
`nil` (success), the `commitAll` error (a partially-committed state), or
the `abortAll` error ("aborted due to prepare phase failures"). -/
inductive TpcOutcome
  | success
  | commitFailed
  | abortedPrepare
deriving DecidableEq

/-- Go `AddDataPointWithTwoPhaseCommit`: Prepare fan-out, the
`allPrepared` decision, then `commitAll` or `abortAll`. -/
def AddDataPointWithTwoPhaseCommit (txid : String) (d : SensorData) (now : Int)
    (ps : List Participant) : TpcOutcome × List Participant :=
  let req := sensorDataToProto d
  let prepped := preparePhase txid req now ps
  let ps1 := prepped.map (fun x => x.1)
  let outs := prepped.map (fun x => x.2)
  if allPrepared outs then
    let r := commitAll txid ps1
    (if r.2 then TpcOutcome.success else TpcOutcome.commitFailed, r.1)
  else
    (TpcOutcome.abortedPrepare, abortAll txid ps1)

/-! ## Client pool construction (`TwoPhaseCommitClientFactory`)

The gRPC dial of one address either succeeds or fails, modelled by
`canConnect`.  Connection lifecycle side effects are recorded as an event
trace so that the cleanup obligation can be stated. -/

/-- A connection lifecycle event. -/
inductive ConnEv
  | opened (addr : String)
  | closed (addr : String)
deriving DecidableEq

/-- The connection loop of `TwoPhaseCommitClientFactory`: on the first
failing address, close the previously opened connections (indices
`0..i-1`, in order) and return the error. -/
def tpcConnectLoop (canConnect : String → Bool) (openedRev : List String) :
    List String → Except String (List String) × List ConnEv
  | [] => (Except.ok openedRev.reverse, [])
  | addr :: rest =>
    if canConnect addr then
      let r := tpcConnectLoop canConnect (addr :: openedRev) rest
      (r.1, ConnEv.opened addr :: r.2)
    else
      (Except.error ("failed to connect to database " ++ addr),
        openedRev.reverse.map ConnEv.closed)

/-- Go `TwoPhaseCommitClientFactory`: reject fewer than 2 addresses, then
open one connection per address with all-or-nothing cleanup. -/
def TwoPhaseCommitClientFactory (canConnect : String → Bool) (addrs : List String) :
    Except String (List String) × List ConnEv :=
  if addrs.length < 2 then
    (Except.error ("2PC requires at least 2 database addresses, got " ++ toString addrs.length),
      [])
  else
    tpcConnectLoop canConnect [] addrs

/-- Opens minus closes of address `a` in an event trace; `0` everywhere
means no connection leaked. -/
def openBalance (evs : List ConnEv) (a : String) : Int :=
  (evs.countP (fun e => e == ConnEv.opened a) : Int) -
    (evs.countP (fun e => e == ConnEv.closed a) : Int)

/-! ## Transaction identifiers (`generateTransactionID`)

`crypto/rand.Read` either fills 16 bytes or fails; `hex.EncodeToString`
writes two lowercase hex digits per byte; the fallback is
`fmt.Sprintf("txn_%d", time.Now().UnixNano())`. -/

/-- One lowercase hexadecimal digit (`0-9` then `a-f`). -/
def hexDigitChar (d : Nat) : Char :=
  if d < 10 then Char.ofNat (48 + d) else Char.ofNat (87 + d)

/-- `hex.EncodeToString`: high nibble then low nibble of every byte. -/
def hexChars : List Nat → List Char
  | [] => []
  | b :: bs => hexDigitChar (b / 16) :: hexDigitChar (b % 16) :: hexChars bs

/-- A decimal digit character. -/
def decDigitChar (d : Nat) : Char := Char.ofNat (48 + d)

/-- Decimal rendering of a natural number (the `%d` verb for the
non-negative `UnixNano` value). -/
def natToDecimalString (n : Nat) : String :=
  if n = 0 then "0" else String.mk (((Nat.digits 10 n).reverse).map decDigitChar)

/-- Go `generateTransactionID`: `randBytes` is the result of
`rand.Read` (`none` on failure), `nowUnixNano` the fallback clock value. -/
def generateTransactionID (randBytes : Option (List Nat)) (nowUnixNano : Nat) : String :=
  match randBytes with
  | some bs => "txn_" ++ String.mk (hexChars bs)
  | none => "txn_" ++ natToDecimalString nowUnixNano

/-- Membership in the lowercase hex alphabet. -/
def isLowerHexChar (c : Char) : Bool := "0123456789abcdef".data.contains c

/-- Membership in the decimal alphabet. -/
def isDecimalDigitChar (c : Char) : Bool := "0123456789".data.contains c

/-! ## Lock traces

The sequential semantics above abstracts the two mutexes away; the claims
about the locking discipline are settled on event traces transcribed from
the `Lock`/`Unlock`/`defer` structure of each Go method.  `txn` is
`txnMutex` (the prepared-set lock), `logLock` is `mu` (the log lock); an
`RLock` acquisition is modelled as an acquisition of the same lock. -/

/-- The two locks of a participant. -/
inductive LockId
  | txn
  | logLock
deriving DecidableEq

/-- A lock acquisition or release. -/
inductive LockEv
  | acq (l : LockId)
  | rel (l : LockId)
deriving DecidableEq

/-- `addDataPointInternal`: `s.mu.Lock()` … `defer s.mu.Unlock()`. -/
def addDataPointLockTrace : List LockEv :=
  [LockEv.acq LockId.logLock, LockEv.rel LockId.logLock]

/-- `CommitTransaction` on a prepared txid: `s.txnMutex.Lock()`, then the
call to `addDataPointInternal` (whose deferred unlock fires when that
helper returns), then `delete`, then the deferred `s.txnMutex.Unlock()`. -/
def commitFoundLockTrace : List LockEv :=
  LockEv.acq LockId.txn :: (addDataPointLockTrace ++ [LockEv.rel LockId.txn])

/-- `CommitTransaction` on an unknown txid: only the prepared lock. -/
def commitAbsentLockTrace : List LockEv :=
  [LockEv.acq LockId.txn, LockEv.rel LockId.txn]

/-- `PrepareTransaction`: only the prepared lock. -/
def prepareLockTrace : List LockEv :=
  [LockEv.acq LockId.txn, LockEv.rel LockId.txn]

/-- `AbortTransaction`: only the prepared lock. -/
def abortLockTrace : List LockEv :=
  [LockEv.acq LockId.txn, LockEv.rel LockId.txn]

/-- `cleanupExpiredTransactions`: only the prepared lock. -/
def cleanupLockTrace : List LockEv :=
  [LockEv.acq LockId.txn, LockEv.rel LockId.txn]

/-- `CreateSensorData` (via `addDataPointInternal`): only the log lock. -/
def createLockTrace : List LockEv := addDataPointLockTrace

/-- `GetAllSensorData` / `GetSensorDataBySensorId` (`RLock`). -/
def readLockTrace : List LockEv :=
  [LockEv.acq LockId.logLock, LockEv.rel LockId.logLock]

/-- `UpdateSensorData`: only the log lock. -/
def updateLockTrace : List LockEv :=
  [LockEv.acq LockId.logLock, LockEv.rel LockId.logLock]

/-- `DeleteSensorData`: only the log lock. -/
def deleteLockTrace : List LockEv :=
  [LockEv.acq LockId.logLock, LockEv.rel LockId.logLock]

/-- The lock traces of every participant operation. -/
def participantLockTraces : List (List LockEv) :=
  [createLockTrace, prepareLockTrace, commitFoundLockTrace, commitAbsentLockTrace,
    abortLockTrace, cleanupLockTrace, readLockTrace, updateLockTrace, deleteLockTrace]

/-- Starting from held-lock multiset `held`, is there a moment during the
trace at which `txn` and `logLock` are held simultaneously? -/
def bothHeldDuring : List LockEv → List LockId → Bool
  | [], _ => false
  | LockEv.acq l :: t, held =>
    let held2 := l :: held
    (held2.contains LockId.txn && held2.contains LockId.logLock) || bothHeldDuring t held2
  | LockEv.rel l :: t, held => bothHeldDuring t (held.erase l)

/-- Does the trace ever acquire lock `a` at a moment when lock `b` is
held? -/
def acquiresWhileHolding (a b : LockId) : List LockEv → List LockId → Bool
  | [], _ => false
  | LockEv.acq l :: t, held =>
    (l == a && held.contains b) || acquiresWhileHolding a b t (l :: held)
  | LockEv.rel l :: t, held => acquiresWhileHolding a b t (held.erase l)

/-! ## Basic facts about the participant operations -/

theorem protoToSensorData_sensorDataToProto (d : SensorData) (now : Int) :
    protoToSensorData (sensorDataToProto d) now = d := rfl

theorem prepare_data_eq (s : DatabaseService) (req : TransactionRequest) (now : Int) :
    (PrepareTransaction s req now).1.data = s.data := by
  unfold PrepareTransaction
  repeat' split <;> try rfl

theorem prepare_max_eq (s : DatabaseService) (req : TransactionRequest) (now : Int) :
    (PrepareTransaction s req now).1.maxDataPoints = s.maxDataPoints := by
  unfold PrepareTransaction
  repeat' split <;> try rfl

theorem abort_data_eq (s : DatabaseService) (txid : String) :
    (AbortTransaction s txid).1.data = s.data := by
  unfold AbortTransaction
  repeat' split <;> try rfl

theorem mem_addDataPointInternal (s : DatabaseService) (d : SensorData)
    (h : 1 ≤ s.maxDataPoints) : d ∈ (addDataPointInternal s d).data := by
  unfold addDataPointInternal
  simp only
  split
  · rename_i hgt
    rw [List.drop_append_of_le_length (by simp at hgt ⊢; omega)]
    simp
  · simp

theorem length_addDataPointInternal (s : DatabaseService) (d : SensorData) :
    (addDataPointInternal s d).data.length ≤ s.maxDataPoints ∨
      (addDataPointInternal s d).data.length = s.data.length + 1 := by
  unfold addDataPointInternal
  simp only
  split
  · left; simp; omega
  · right; simp

theorem prepare_success_state (s : DatabaseService) (req : TransactionRequest) (now : Int)
    (h : (PrepareTransaction s req now).2.success = true) :
    req.transactionId ≠ "" ∧
      ∃ sd, req.sensorData = some sd ∧ sd.sensorId ≠ "" ∧
        s.preparedTxns.lookup req.transactionId = none ∧
        (PrepareTransaction s req now).1 =
          { s with preparedTxns :=
              (req.transactionId,
                { transactionID := req.transactionId
                  sensorData := protoToSensorData sd now
                  preparedAt := now }) :: s.preparedTxns } := by
  unfold PrepareTransaction at h ⊢
  split at h
  · simp at h
  · rename_i hid
    split at h
    · simp at h
    · rename_i sd hsd
      split at h
      · simp at h
      · rename_i hsid
        split at h
        · simp at h
        · rename_i hlk
          refine ⟨hid, sd, hsd, hsid, ?_, ?_⟩
          · simp [Option.isSome_iff_exists] at hlk
            cases hcase : s.preparedTxns.lookup req.transactionId with
            | none => rfl
            | some v => exact absurd hcase (hlk v)
          · simp [hid, hsd, hsid, hlk]

theorem commit_found (s : DatabaseService) (txid : String) (st : TransactionState)
    (ht : txid ≠ "") (hl : s.preparedTxns.lookup txid = some st) :
    CommitTransaction s txid =
      ({ addDataPointInternal s st.sensorData with
          preparedTxns := eraseTxn (addDataPointInternal s st.sensorData).preparedTxns txid },
        ⟨true, "Transaction committed successfully"⟩) := by
  unfold CommitTransaction
  simp [ht, hl]

theorem commit_success_data (s : DatabaseService) (txid : String)
    (h : (CommitTransaction s txid).2.success = true) :
    txid ≠ "" ∧ ∃ st, s.preparedTxns.lookup txid = some st ∧
      (CommitTransaction s txid).1.data = (addDataPointInternal s st.sensorData).data := by
  unfold CommitTransaction at h ⊢
  split at h
  · simp at h
  · rename_i ht
    split at h
    · simp at h
    · rename_i st hst
      exact ⟨ht, st, hst, by simp [ht, hst]⟩

theorem updateEntries_length (sensorId : String) (ts : Int) (v : Int) (u : String) :
    ∀ l : List SensorData, (updateEntries sensorId ts v u l).1.length = l.length := by
  intro l
  induction l with
  | nil => rfl
  | cons d rest ih =>
    unfold updateEntries
    split
    · simp
    · simp [ih]

theorem updateEntries_not_found (sensorId : String) (ts : Int) (v : Int) (u : String) :
    ∀ l : List SensorData, (∀ d ∈ l, ¬(d.sensorID = sensorId ∧ d.timestamp = ts)) →
      updateEntries sensorId ts v u l = (l, false) := by
  intro l
  induction l with
  | nil => intro _; rfl
  | cons d rest ih =>
    intro h
    unfold updateEntries
    rw [if_neg (h d (by simp))]
    simp [ih (fun x hx => h x (by simp [hx]))]

/-- Sample record used by witnesses. -/
def rEx : SensorData := ⟨"s1", 7, 25, "C"⟩

/-- Sample empty service (capacity 5) used by witnesses. -/
def sEx : DatabaseService := DatabaseServiceFactory 5

/-- Sample service holding one record, used by witnesses. -/
def sOne : DatabaseService := { sEx with data := [rEx] }

/-- Sample prepare request used by witnesses. -/
def reqEx : TransactionRequest := ⟨"t1", some (sensorDataToProto rEx)⟩

/-- Claim C4: `PrepareTransaction` returns a NO vote with a diagnostic on
an empty txid, a missing record or an empty sensor id; refuses an already
prepared txid with "already prepared"; otherwise inserts `(record, now)`
into the prepared set and votes YES; and in every case it leaves the
replica log unchanged. -/
theorem claim_C4 (s : DatabaseService) (req : TransactionRequest) (now : Int) :
    (PrepareTransaction s req now).1.data = s.data
    ∧ ((req.transactionId = "" ∨ req.sensorData = none ∨
        (∃ sd, req.sensorData = some sd ∧ sd.sensorId = "")) →
      (PrepareTransaction s req now).2.success = false ∧
        (PrepareTransaction s req now).2.message ≠ "")
    ∧ (∀ sd, req.transactionId ≠ "" → req.sensorData = some sd → sd.sensorId ≠ "" →
        (s.preparedTxns.lookup req.transactionId).isSome →
        PrepareTransaction s req now =
          (s, ⟨false, "Transaction already prepared", req.transactionId⟩))
    ∧ (∀ sd, req.transactionId ≠ "" → req.sensorData = some sd → sd.sensorId ≠ "" →
        s.preparedTxns.lookup req.transactionId = none →
        PrepareTransaction s req now =
          ({ s with preparedTxns :=
              (req.transactionId,
                { transactionID := req.transactionId
                  sensorData := protoToSensorData sd now
                  preparedAt := now }) :: s.preparedTxns },
            ⟨true, "Transaction prepared successfully", req.transactionId⟩)) := by
  refine ⟨prepare_data_eq s req now, ?_, ?_, ?_⟩
  · intro hcase
    unfold PrepareTransaction
    rcases hcase with h1 | h2 | ⟨sd, h3, h4⟩
    · simp [h1]
    · simp [h2]
      split <;> simp
    · repeat' split <;> simp_all
  · intro sd hid hsd hsid hlk
    unfold PrepareTransaction
    simp [hid, hsd, hsid, hlk]
  · intro sd hid hsd hsid hlk
    unfold PrepareTransaction
    simp [hid, hsd, hsid, hlk]

/-- Witness for C4: preparing a fresh transaction on the sample service
inserts it and votes YES. -/
theorem claim_C4_witness :
    PrepareTransaction sEx reqEx 3 =
      ({ sEx with preparedTxns :=
          ("t1", { transactionID := "t1", sensorData := rEx, preparedAt := 3 }) ::
            sEx.preparedTxns },
        ⟨true, "Transaction prepared successfully", "t1"⟩) :=
  (claim_C4 sEx reqEx 3).2.2.2 (sensorDataToProto rEx) (by decide) rfl (by decide) rfl

/-- Claim C5 counterexample: the empty txid is always absent from the
prepared set, yet Commit and Abort report "Missing transaction ID"
rather than the "not found or not prepared" diagnostic. -/
theorem claim_C5_counterexample :
    (DatabaseServiceFactory 5).preparedTxns.lookup "" = none ∧
    CommitTransaction (DatabaseServiceFactory 5) "" =
      (DatabaseServiceFactory 5, ⟨false, "Missing transaction ID"⟩) ∧
    AbortTransaction (DatabaseServiceFactory 5) "" =
      (DatabaseServiceFactory 5, ⟨false, "Missing transaction ID"⟩) ∧
    "Missing transaction ID" ≠ notPreparedMsg "" :=
  ⟨rfl, rfl, rfl, by decide⟩

/-- Claim C5 (amended): Commit and Abort on a txid absent from the
prepared set fail and leave the whole service state (prepared set and
log) unchanged; the failure message is the "not found or not prepared"
diagnostic when the txid is non-empty, and "Missing transaction ID" when
it is empty. -/
theorem claim_C5_amended (s : DatabaseService) (txid : String)
    (h : s.preparedTxns.lookup txid = none) :
    (txid ≠ "" →
      CommitTransaction s txid = (s, ⟨false, notPreparedMsg txid⟩) ∧
      AbortTransaction s txid = (s, ⟨false, notPreparedMsg txid⟩))
    ∧ (txid = "" →
      CommitTransaction s txid = (s, ⟨false, "Missing transaction ID"⟩) ∧
      AbortTransaction s txid = (s, ⟨false, "Missing transaction ID"⟩)) := by
  constructor
  · intro ht
    constructor
    · unfold CommitTransaction; simp [ht, h]
    · unfold AbortTransaction; simp [ht, h]
  · intro ht
    constructor
    · unfold CommitTransaction; simp [ht]
    · unfold AbortTransaction; simp [ht]

/-- Witness for the amended C5: Commit and Abort of an unprepared
non-empty txid on the sample service fail with the "not prepared"
diagnostic and change nothing. -/
theorem claim_C5_witness :
    CommitTransaction sEx "tx" = (sEx, ⟨false, notPreparedMsg "tx"⟩) ∧
    AbortTransaction sEx "tx" = (sEx, ⟨false, notPreparedMsg "tx"⟩) :=
  (claim_C5_amended sEx "tx" rfl).1 (by decide)

/-- Claim C6: every append (direct Create, or Commit of a prepared
transaction) succeeds; when the append exceeds the capacity, exactly the
oldest surplus entries are dropped so the most recent ones remain in
insertion order; the log length is at most the capacity after an append;
and no other operation grows the log. -/
theorem claim_C6 (s : DatabaseService) (d : SensorData) :
    ((s.data ++ [d]).length > s.maxDataPoints →
      (addDataPointInternal s d).data =
        (s.data ++ [d]).drop ((s.data ++ [d]).length - s.maxDataPoints) ∧
      (addDataPointInternal s d).data.length = s.maxDataPoints)
    ∧ ((s.data ++ [d]).length ≤ s.maxDataPoints →
      (addDataPointInternal s d).data = s.data ++ [d])
    ∧ (addDataPointInternal s d).data.length ≤ s.maxDataPoints
    ∧ (∀ req now, req.sensorId ≠ "" →
        (CreateSensorData s req now).2.success = true ∧
        (CreateSensorData s req now).1 = addDataPointInternal s (protoToSensorData req now))
    ∧ (∀ txid st, txid ≠ "" → s.preparedTxns.lookup txid = some st →
        (CommitTransaction s txid).2.success = true ∧
        (CommitTransaction s txid).1.data = (addDataPointInternal s st.sensorData).data)
    ∧ (∀ req, (UpdateSensorData s req).1.data.length = s.data.length)
    ∧ (∀ sid, (DeleteSensorData s sid).1.data.length ≤ s.data.length)
    ∧ (∀ treq now, (PrepareTransaction s treq now).1.data = s.data)
    ∧ (∀ txid, (AbortTransaction s txid).1.data = s.data)
    ∧ (∀ now, (cleanupExpiredTransactions s now).data = s.data) := by
  refine ⟨?_, ?_, ?_, ?_, ?_, ?_, ?_, ?_, ?_, ?_⟩
  · intro hgt
    unfold addDataPointInternal
    simp only
    rw [if_pos (by simpa using hgt)]
    refine ⟨rfl, ?_⟩
    simp at hgt ⊢
    omega
  · intro hle
    unfold addDataPointInternal
    simp only
    rw [if_neg (by simp at hle ⊢; omega)]
  · unfold addDataPointInternal
    simp only
    split
    · rename_i hgt
      simp at hgt ⊢
      omega
    · rename_i hle
      simp at hle ⊢
      omega
  · intro req now hid
    unfold CreateSensorData
    simp [hid]
  · intro txid st ht hst
    rw [commit_found s txid st ht hst]
    exact ⟨rfl, rfl⟩
  · intro req
    unfold UpdateSensorData
    cases hts : req.timestamp with
    | none => rfl
    | some ts =>
      simp only
      split
      · rfl
      · split
        · simp [updateEntries_length]
        · rfl
  · intro sid
    unfold DeleteSensorData
    split
    · simp
    · simpa using List.length_filter_le _ s.data
  · exact fun treq now => prepare_data_eq s treq now
  · exact fun txid => abort_data_eq s txid
  · exact fun _ => rfl

/-- Witness for C6: a direct Create on the sample service succeeds and
appends. -/
theorem claim_C6_witness :
    (CreateSensorData sEx (sensorDataToProto rEx) 0).2.success = true ∧
    (CreateSensorData sEx (sensorDataToProto rEx) 0).1 =
      addDataPointInternal sEx (protoToSensorData (sensorDataToProto rEx) 0) :=
  (claim_C6 sEx rEx).2.2.2.1 (sensorDataToProto rEx) 0 (by decide)

/-- Claim C7: one sweeper run removes exactly the prepared entries whose
age strictly exceeds the timeout (30 s at a factory-built service),
retains every younger entry, and leaves the log untouched. -/
theorem claim_C7 (s : DatabaseService) (now : Int) :
    (cleanupExpiredTransactions s now).data = s.data
    ∧ (cleanupExpiredTransactions s now).maxDataPoints = s.maxDataPoints
    ∧ (∀ p, p ∈ (cleanupExpiredTransactions s now).preparedTxns ↔
        p ∈ s.preparedTxns ∧ now - p.2.preparedAt ≤ s.txnTimeout)
    ∧ (cleanupExpiredTransactions s now).preparedTxns =
        s.preparedTxns.filter (fun p => !(decide (s.txnTimeout < now - p.2.preparedAt)))
    ∧ (∀ limit, (DatabaseServiceFactory limit).txnTimeout = 30 * 1000000000) := by
  refine ⟨rfl, rfl, ?_, rfl, fun _ => rfl⟩
  intro p
  unfold cleanupExpiredTransactions
  simp [List.mem_filter, not_lt]

/-- Claim C10: Delete with a non-empty sensor id always succeeds, keeps
the non-matching records in their relative order, and leaves the log
unchanged when nothing matches; Update fails with "Data not found" when
nothing matches. -/
theorem claim_C10 (s : DatabaseService) :
    (∀ sid, sid ≠ "" →
      (DeleteSensorData s sid).2.success = true ∧
      (DeleteSensorData s sid).1.data = s.data.filter (fun d => d.sensorID != sid) ∧
      List.Sublist (DeleteSensorData s sid).1.data s.data ∧
      ((∀ d ∈ s.data, d.sensorID ≠ sid) → (DeleteSensorData s sid).1 = s))
    ∧ (∀ req ts, req.sensorId ≠ "" → req.timestamp = some ts →
        (∀ d ∈ s.data, ¬(d.sensorID = req.sensorId ∧ d.timestamp = ts)) →
        UpdateSensorData s req = (s, ⟨false, "Data not found"⟩)) := by
  constructor
  · intro sid hsid
    refine ⟨?_, ?_, ?_, ?_⟩
    · unfold DeleteSensorData; simp [hsid]
    · unfold DeleteSensorData; simp [hsid]
    · unfold DeleteSensorData
      rw [if_neg hsid]
      exact List.filter_sublist s.data
    · intro hnone
      unfold DeleteSensorData
      rw [if_neg hsid]
      simp only
      rw [List.filter_eq_self.mpr (fun a ha => by simpa using hnone a ha)]
  · intro req ts hid hts hmatch
    unfold UpdateSensorData
    rw [hts]
    simp only
    rw [if_neg hid]
    simp [updateEntries_not_found _ _ _ _ s.data hmatch]

/-- Witness for C10: deleting an unknown sensor id leaves the sample
service unchanged; updating an unknown record fails with
"Data not found". -/
theorem claim_C10_witness :
    (DeleteSensorData sOne "zz").1 = sOne ∧
    UpdateSensorData sOne ⟨"nope", some 0, 1, "u"⟩ = (sOne, ⟨false, "Data not found"⟩) :=
  ⟨((claim_C10 sOne).1 "zz" (by decide)).2.2.2 (by decide),
    (claim_C10 sOne).2 ⟨"nope", some 0, 1, "u"⟩ 0 (by decide) rfl (by decide)⟩

/-- Claim C2 counterexample: in the commit of a prepared transaction the
log lock is acquired at a moment the prepared-set lock is held — the
prepared lock is not released before the log lock is acquired, and the
two locks are held simultaneously. -/
theorem claim_C2_counterexample :
    acquiresWhileHolding LockId.logLock LockId.txn commitFoundLockTrace [] = true ∧
    bothHeldDuring commitFoundLockTrace [] = true := by decide

/-- Claim C2 (amended): the prepared-set lock is held across the log
append in Commit — the only participant operation that ever holds both
locks — and no operation acquires the prepared-set lock while holding the
log lock, so the two locks are only ever nested in the order
prepared-lock first, log lock second. -/
theorem claim_C2_amended :
    (participantLockTraces.all
      (fun t => !acquiresWhileHolding LockId.txn LockId.logLock t [])) = true ∧
    (participantLockTraces.all
      (fun t => bothHeldDuring t [] == (t == commitFoundLockTrace))) = true := by decide

/-! ## Facts about the client-pool factory -/

theorem openBalance_cons_opened (b : String) (evs : List ConnEv) (a : String) :
    openBalance (ConnEv.opened b :: evs) a =
      openBalance evs a + (if b = a then 1 else 0) := by
  unfold openBalance
  rw [List.countP_cons, List.countP_cons]
  rcases eq_or_ne b a with rfl | hba
  · simp
    omega
  · simp [hba]

theorem openBalance_cons_closed (b : String) (evs : List ConnEv) (a : String) :
    openBalance (ConnEv.closed b :: evs) a =
      openBalance evs a - (if b = a then 1 else 0) := by
  unfold openBalance
  rw [List.countP_cons, List.countP_cons]
  rcases eq_or_ne b a with rfl | hba
  · simp
    omega
  · simp [hba]

theorem openBalance_closes (l : List String) (a : String) :
    openBalance (l.map ConnEv.closed) a = -(l.count a : Int) := by
  induction l with
  | nil => rfl
  | cons b t ih =>
    rw [List.map_cons, openBalance_cons_closed, ih, List.count_cons]
    rcases eq_or_ne b a with rfl | hba
    · simp
      omega
    · simp [hba]

theorem tpcConnectLoop_error_balance (canConnect : String → Bool) :
    ∀ (pending openedRev : List String) (e : String),
      (tpcConnectLoop canConnect openedRev pending).1 = Except.error e →
      ∀ a, openBalance (tpcConnectLoop canConnect openedRev pending).2 a =
        -(openedRev.count a : Int) := by
  intro pending
  induction pending with
  | nil =>
    intro openedRev e he a
    simp [tpcConnectLoop] at he
  | cons addr rest ih =>
    intro openedRev e he a
    unfold tpcConnectLoop at he ⊢
    by_cases hcan : canConnect addr = true
    · rw [if_pos hcan] at he ⊢
      simp only at he ⊢
      rw [openBalance_cons_opened, ih (addr :: openedRev) e he a, List.count_cons]
      rcases eq_or_ne addr a with rfl | hba
      · simp
      · simp [hba]
    · rw [if_neg hcan] at he ⊢
      simp only
      rw [openBalance_closes, List.count_reverse]

theorem tpcConnectLoop_error_of_bad (canConnect : String → Bool) :
    ∀ (pending openedRev : List String), (∃ a ∈ pending, canConnect a = false) →
      ∃ e, (tpcConnectLoop canConnect openedRev pending).1 = Except.error e := by
  intro pending
  induction pending with
  | nil =>
    intro openedRev h
    simp at h
  | cons addr rest ih =>
    intro openedRev h
    unfold tpcConnectLoop
    by_cases hcan : canConnect addr = true
    · rw [if_pos hcan]
      simp only
      rcases h with ⟨a, ha, hbad⟩
      rcases List.mem_cons.mp ha with rfl | hmem
      · rw [hcan] at hbad; cases hbad
      · exact ih (addr :: openedRev) ⟨a, hmem, hbad⟩
    · rw [if_neg hcan]
      exact ⟨_, rfl⟩

/-- Claim C8: the factory rejects fewer than 2 addresses; a failing
connection makes it return an error; and whenever it returns an error,
every opened connection has been closed again (no leak, no partially
constructed pool). -/
theorem claim_C8 :
    (∀ (canConnect : String → Bool) (addrs : List String), addrs.length < 2 →
      (TwoPhaseCommitClientFactory canConnect addrs).1 =
        Except.error
          ("2PC requires at least 2 database addresses, got " ++ toString addrs.length))
    ∧ (∀ (canConnect : String → Bool) (addrs : List String),
        2 ≤ addrs.length → (∃ a ∈ addrs, canConnect a = false) →
        ∃ e, (TwoPhaseCommitClientFactory canConnect addrs).1 = Except.error e)
    ∧ (∀ (canConnect : String → Bool) (addrs : List String) (e : String),
        (TwoPhaseCommitClientFactory canConnect addrs).1 = Except.error e →
        ∀ a, openBalance (TwoPhaseCommitClientFactory canConnect addrs).2 a = 0) := by
  refine ⟨?_, ?_, ?_⟩
  · intro canConnect addrs hlen
    unfold TwoPhaseCommitClientFactory
    rw [if_pos hlen]
  · intro canConnect addrs hlen hbad
    unfold TwoPhaseCommitClientFactory
    rw [if_neg (by omega)]
    exact tpcConnectLoop_error_of_bad canConnect addrs [] hbad
  · intro canConnect addrs e he a
    unfold TwoPhaseCommitClientFactory at he ⊢
    by_cases hlen : addrs.length < 2
    · rw [if_pos hlen]
      rfl
    · rw [if_neg hlen] at he ⊢
      simpa using tpcConnectLoop_error_balance canConnect addrs [] e he a

/-- Witness for C8: address "bad" fails to connect, the factory returns
the connection error and the one opened connection is balanced by a
close; one single address is rejected outright. -/
theorem claim_C8_witness :
    (TwoPhaseCommitClientFactory (fun a => !(a == "bad")) ["good", "bad"]).1 =
      Except.error "failed to connect to database bad" ∧
    (∀ a,
      openBalance (TwoPhaseCommitClientFactory (fun a => !(a == "bad")) ["good", "bad"]).2 a
        = 0) ∧
    (TwoPhaseCommitClientFactory (fun _ => true) ["solo"]).1 =
      Except.error "2PC requires at least 2 database addresses, got 1" :=
  ⟨rfl,
    claim_C8.2.2 (fun a => !(a == "bad")) ["good", "bad"]
      "failed to connect to database bad" rfl,
    claim_C8.1 (fun _ => true) ["solo"] (by decide)⟩

/-! ## Facts about transaction-id generation -/

theorem hexChars_length : ∀ bs : List Nat, (hexChars bs).length = 2 * bs.length := by
  intro bs
  induction bs with
  | nil => rfl
  | cons b t ih =>
    simp [hexChars, ih]
    omega

theorem hexDigitChar_lower (d : Nat) (h : d < 16) : isLowerHexChar (hexDigitChar d) = true := by
  interval_cases d <;> decide

theorem mem_hexChars_lower : ∀ bs : List Nat, (∀ b ∈ bs, b < 256) →
    ∀ c ∈ hexChars bs, isLowerHexChar c = true := by
  intro bs
  induction bs with
  | nil =>
    intro _ c hc
    simp [hexChars] at hc
  | cons b t ih =>
    intro h c hc
    simp only [hexChars, List.mem_cons] at hc
    rcases hc with rfl | rfl | hc
    · refine hexDigitChar_lower _ ?_
      have hb : b < 256 := h b (by simp)
      exact (Nat.div_lt_iff_lt_mul (by omega)).mpr (by omega)
    · exact hexDigitChar_lower _ (Nat.mod_lt _ (by omega))
    · exact ih (fun x hx => h x (by simp [hx])) c hc

theorem natToDecimal_digits (n : Nat) :
    ∀ c ∈ (natToDecimalString n).data, isDecimalDigitChar c = true := by
  unfold natToDecimalString
  split
  · intro c hc
    rcases List.mem_singleton.mp hc with rfl
    decide
  · intro c hc
    have hc2 : c ∈ ((Nat.digits 10 n).reverse).map decDigitChar := hc
    simp only [List.mem_map, List.mem_reverse] at hc2
    obtain ⟨d, hd, rfl⟩ := hc2
    have hd10 : d < 10 := Nat.digits_lt_base (by norm_num) hd
    interval_cases d <;> decide

/-- Claim C9: a transaction id built from 16 random bytes is `txn_`
followed by exactly 32 lowercase hex characters; the fallback id is
`txn_` followed by the decimal rendering of the nanosecond clock. -/
theorem claim_C9 :
    (∀ (bs : List Nat) (t : Nat), bs.length = 16 → (∀ b ∈ bs, b < 256) →
      (generateTransactionID (some bs) t).data = "txn_".data ++ hexChars bs ∧
      (hexChars bs).length = 32 ∧
      (∀ c ∈ hexChars bs, isLowerHexChar c = true))
    ∧ (∀ t : Nat,
      (generateTransactionID none t).data = "txn_".data ++ (natToDecimalString t).data ∧
      (∀ c ∈ (natToDecimalString t).data, isDecimalDigitChar c = true)) := by
  constructor
  · intro bs t h16 hbytes
    refine ⟨?_, ?_, mem_hexChars_lower bs hbytes⟩
    · unfold generateTransactionID
      rw [String.data_append]
    · rw [hexChars_length, h16]
  · intro t
    refine ⟨?_, natToDecimal_digits t⟩
    unfold generateTransactionID
    rw [String.data_append]

/-- Witness for C9: a concrete 16-byte input yields a 32-hex-character
id. -/
theorem claim_C9_witness :
    (generateTransactionID (some (List.replicate 16 171)) 5).data =
      "txn_".data ++ hexChars (List.replicate 16 171) ∧
    (hexChars (List.replicate 16 171)).length = 32 ∧
    (∀ c ∈ hexChars (List.replicate 16 171), isLowerHexChar c = true) :=
  claim_C9.1 (List.replicate 16 171) 5 (by decide) (by decide)

/-! ## Facts about the coordinator -/

theorem prepareOutcomeYes_iff (o : Option PrepareResponse) :
    prepareOutcomeYes o = true ↔ ∃ resp, o = some resp ∧ resp.success = true := by
  cases o with
  | none => simp [prepareOutcomeYes]
  | some r => simp [prepareOutcomeYes]

theorem prepStep_data_eq (txid : String) (req : SensorDataRequest) (now : Int)
    (p : Participant) : (prepStep txid req now p).1.1.data = p.1.data := by
  unfold prepStep
  split
  · exact prepare_data_eq _ _ _
  · rfl

theorem abortStep_data_eq (txid : String) (p : Participant) :
    (abortStep txid p).1.data = p.1.data := by
  unfold abortStep
  split
  · exact abort_data_eq _ _
  · rfl

theorem prepStep_yes (txid : String) (req : SensorDataRequest) (now : Int) (p : Participant)
    (h : prepareOutcomeYes (prepStep txid req now p).2 = true) :
    (prepStep txid req now p).1 = ((PrepareTransaction p.1 ⟨txid, some req⟩ now).1, p.2) ∧
      (PrepareTransaction p.1 ⟨txid, some req⟩ now).2.success = true := by
  unfold prepStep at h ⊢
  by_cases hok : p.2.prepOk = true
  · rw [if_pos hok] at h ⊢
    exact ⟨rfl, by simpa [prepareOutcomeYes] using h⟩
  · rw [if_neg hok] at h
    simp [prepareOutcomeYes] at h

/-- The happy path of one participant: a delivered YES Prepare followed by
a successful Commit leaves the submitted record in the replica log
(provided the capacity is at least 1). -/
theorem happy_path_mem (txid : String) (d : SensorData) (now : Int) (p : Participant)
    (hmax : 1 ≤ p.1.maxDataPoints)
    (hyes : prepareOutcomeYes (prepStep txid (sensorDataToProto d) now p).2 = true)
    (hcommit : (commitStep txid (prepStep txid (sensorDataToProto d) now p).1).2 = true) :
    d ∈ (commitStep txid (prepStep txid (sensorDataToProto d) now p).1).1.1.data := by
  obtain ⟨hstate, hsucc⟩ := prepStep_yes txid (sensorDataToProto d) now p hyes
  obtain ⟨hid, sd, hsd, hsid, hlk, hps⟩ :=
    prepare_success_state p.1 ⟨txid, some (sensorDataToProto d)⟩ now hsucc
  have hsd2 : sd = sensorDataToProto d := by
    simpa using hsd.symm
  subst hsd2
  rw [hstate] at hcommit ⊢
  unfold commitStep at hcommit ⊢
  by_cases hdec : (p.2 : Net).decOk = true
  · rw [if_pos hdec] at hcommit ⊢
    simp only at hcommit ⊢
    have hlook :
        (PrepareTransaction p.1 ⟨txid, some (sensorDataToProto d)⟩ now).1.preparedTxns.lookup
          txid = some
            { transactionID := txid
              sensorData := protoToSensorData (sensorDataToProto d) now
              preparedAt := now } := by
      rw [hps]
      simp [List.lookup]
    rw [commit_found _ txid _ hid hlook]
    have hmax2 :
        1 ≤ (PrepareTransaction p.1 ⟨txid, some (sensorDataToProto d)⟩ now).1.maxDataPoints := by
      rw [prepare_max_eq]
      exact hmax
    simpa [protoToSensorData_sensorDataToProto] using
      mem_addDataPointInternal _ (protoToSensorData (sensorDataToProto d) now) hmax2
  · rw [if_neg hdec] at hcommit
    simp at hcommit

/-- The coordinator run on exactly two participants, written out. -/
theorem run_two (txid : String) (d : SensorData) (now : Int) (a b : Participant) :
    AddDataPointWithTwoPhaseCommit txid d now [a, b] =
      if prepareOutcomeYes (prepStep txid (sensorDataToProto d) now a).2 &&
          prepareOutcomeYes (prepStep txid (sensorDataToProto d) now b).2 then
        (if (commitStep txid (prepStep txid (sensorDataToProto d) now a).1).2 &&
            (commitStep txid (prepStep txid (sensorDataToProto d) now b).1).2 then
          TpcOutcome.success
        else TpcOutcome.commitFailed,
          [(commitStep txid (prepStep txid (sensorDataToProto d) now a).1).1,
            (commitStep txid (prepStep txid (sensorDataToProto d) now b).1).1])
      else
        (TpcOutcome.abortedPrepare,
          [abortStep txid (prepStep txid (sensorDataToProto d) now a).1,
            abortStep txid (prepStep txid (sensorDataToProto d) now b).1]) := by
  simp [AddDataPointWithTwoPhaseCommit, preparePhase, allPrepared, commitAll, abortAll]

/-- Claim C1 (atomicity of one 2PC call on the two participants): on
success the record is in both replica logs; on an abort decision (at
least one NO vote or Prepare transport failure) a record not previously
stored is in neither log; and any delivered NO vote forces the abort
outcome. -/
theorem claim_C1 (A B : DatabaseService) (nA nB : Net) (txid : String) (d : SensorData)
    (now : Int) (hA : 1 ≤ A.maxDataPoints) (hB : 1 ≤ B.maxDataPoints)
    (hdA : d ∉ A.data) (hdB : d ∉ B.data) :
    ((AddDataPointWithTwoPhaseCommit txid d now [(A, nA), (B, nB)]).1 = TpcOutcome.success →
      ∃ PA PB, (AddDataPointWithTwoPhaseCommit txid d now [(A, nA), (B, nB)]).2 = [PA, PB] ∧
        d ∈ PA.1.data ∧ d ∈ PB.1.data)
    ∧ ((AddDataPointWithTwoPhaseCommit txid d now [(A, nA), (B, nB)]).1 =
          TpcOutcome.abortedPrepare →
      ∃ PA PB, (AddDataPointWithTwoPhaseCommit txid d now [(A, nA), (B, nB)]).2 = [PA, PB] ∧
        d ∉ PA.1.data ∧ d ∉ PB.1.data)
    ∧ ((∃ o ∈ (preparePhase txid (sensorDataToProto d) now [(A, nA), (B, nB)]).map
          (fun x => x.2), ∃ resp, o = some resp ∧ resp.success = false) →
      (AddDataPointWithTwoPhaseCommit txid d now [(A, nA), (B, nB)]).1 =
        TpcOutcome.abortedPrepare) := by
  refine ⟨?_, ?_, ?_⟩
  · intro hs
    rw [run_two] at hs ⊢
    split at hs
    · rename_i hyes
      split at hs
      · rename_i hcs
        rw [if_pos hyes, if_pos hcs]
        obtain ⟨hya, hyb⟩ := Bool.and_eq_true_iff.mp hyes
        obtain ⟨hca, hcb⟩ := Bool.and_eq_true_iff.mp hcs
        exact ⟨_, _, rfl, happy_path_mem txid d now (A, nA) hA hya hca,
          happy_path_mem txid d now (B, nB) hB hyb hcb⟩
      · simp at hs
    · simp at hs
  · intro hab
    rw [run_two] at hab ⊢
    split at hab
    · split at hab <;> simp at hab
    · rename_i hno
      rw [if_neg hno]
      refine ⟨_, _, rfl, ?_, ?_⟩
      · rw [abortStep_data_eq, prepStep_data_eq]
        exact hdA
      · rw [abortStep_data_eq, prepStep_data_eq]
        exact hdB
  · rintro ⟨o, ho, resp, rfl, hrs⟩
    rw [run_two]
    simp only [preparePhase, List.map_cons, List.map_nil, List.mem_cons,
      List.not_mem_nil, or_false] at ho
    have hno : (prepareOutcomeYes (prepStep txid (sensorDataToProto d) now (A, nA)).2 &&
        prepareOutcomeYes (prepStep txid (sensorDataToProto d) now (B, nB)).2) = false := by
      rcases ho with h | h
      · have hfa : prepareOutcomeYes (prepStep txid (sensorDataToProto d) now (A, nA)).2
            = false := by
          rw [← h]
          exact hrs
        simp [hfa]
      · have hfb : prepareOutcomeYes (prepStep txid (sensorDataToProto d) now (B, nB)).2
            = false := by
          rw [← h]
          exact hrs
        simp [hfb]
    rw [if_neg (by simp [hno])]

/-- Witness for C1: a healthy run on the two sample replicas stores the
record in both logs. -/
theorem claim_C1_witness :
    ∃ PA PB,
      (AddDataPointWithTwoPhaseCommit "t1" rEx 0
        [(sEx, ⟨true, true⟩), (sEx, ⟨true, true⟩)]).2 = [PA, PB] ∧
      rEx ∈ PA.1.data ∧ rEx ∈ PB.1.data :=
  (claim_C1 sEx sEx ⟨true, true⟩ ⟨true, true⟩ "t1" rEx 0 (by decide) (by decide)
    (by decide) (by decide)).1 (by decide)

/-- Claim C3: every participant receives a Prepare whose outcome depends
only on its own state (no short-circuit on an earlier NO vote or
transport error); the decision is COMMIT iff every outcome is a delivered
YES; on COMMIT a Commit goes to every participant, otherwise an Abort
goes to every participant. -/
theorem claim_C3 (txid : String) (d : SensorData) (now : Int) (ps : List Participant) :
    ((preparePhase txid (sensorDataToProto d) now ps).map (fun x => x.2)).length = ps.length
    ∧ (preparePhase txid (sensorDataToProto d) now ps).map (fun x => x.2) =
        ps.map (fun p => (prepStep txid (sensorDataToProto d) now p).2)
    ∧ (allPrepared ((preparePhase txid (sensorDataToProto d) now ps).map (fun x => x.2))
          = true ↔
        ∀ o ∈ (preparePhase txid (sensorDataToProto d) now ps).map (fun x => x.2),
          ∃ resp, o = some resp ∧ resp.success = true)
    ∧ (allPrepared ((preparePhase txid (sensorDataToProto d) now ps).map (fun x => x.2))
          = true →
        (AddDataPointWithTwoPhaseCommit txid d now ps).2 =
          ps.map (fun p => (commitStep txid (prepStep txid (sensorDataToProto d) now p).1).1))
    ∧ (allPrepared ((preparePhase txid (sensorDataToProto d) now ps).map (fun x => x.2))
          = false →
        (AddDataPointWithTwoPhaseCommit txid d now ps).1 = TpcOutcome.abortedPrepare ∧
        (AddDataPointWithTwoPhaseCommit txid d now ps).2 =
          ps.map (fun p => abortStep txid (prepStep txid (sensorDataToProto d) now p).1)) := by
  refine ⟨by simp [preparePhase], by simp [preparePhase, List.map_map, Function.comp],
    ?_, ?_, ?_⟩
  · simp [allPrepared, List.all_eq_true, prepareOutcomeYes_iff]
  · intro h
    unfold AddDataPointWithTwoPhaseCommit
    simp only
    rw [if_pos h]
    simp [commitAll, preparePhase, List.map_map, Function.comp]
  · intro h
    unfold AddDataPointWithTwoPhaseCommit
    simp only
    rw [if_neg (by simp [h])]
    exact ⟨rfl, by simp [abortAll, preparePhase, List.map_map, Function.comp]⟩

/-- Witness for C3: with the second participant unreachable in the
Prepare phase, the run aborts and every participant is sent an Abort. -/
theorem claim_C3_witness :
    (AddDataPointWithTwoPhaseCommit "t1" rEx 0
      [(sEx, ⟨true, true⟩), (sEx, ⟨false, true⟩)]).1 = TpcOutcome.abortedPrepare ∧
    (AddDataPointWithTwoPhaseCommit "t1" rEx 0
      [(sEx, ⟨true, true⟩), (sEx, ⟨false, true⟩)]).2 =
      [(sEx, ⟨true, true⟩), (sEx, ⟨false, true⟩)].map
        (fun p => abortStep "t1" (prepStep "t1" (sensorDataToProto rEx) 0 p).1) :=
  (claim_C3 "t1" rEx 0 [(sEx, ⟨true, true⟩), (sEx, ⟨false, true⟩)]).2.2.2.2 (by decide)

end TwoPC
